import Mathlib

set_option maxRecDepth 10000

/-!
Shallow embedding of the blob ingestion path of
`src/packages/backend/server/src/modules/workspaces/resolvers/blob.ts`
(`WorkspaceBlobResolver`): the `setBlob` mutation with its inner
`checkExceeded` quota guard and chunked stream buffering, plus the
`blobs`, `blobsSize` and `deleteBlob` operations.

Bytes are modelled as `Nat`, chunks as `List Nat`, sizes as `Nat`
(all byte counts in the source are non-negative JS numbers).
GraphQL errors are modelled by their message and HTTP status code.
-/

/-- A thrown `GraphQLError`, identified by its message and HTTP status code
(the `extensions.code` used in the source). -/
structure GqlError where
  message : String
  code : Nat
deriving DecidableEq

/-- The error thrown by `checkExceeded` when `!quota` is truthy:
`GraphQLError('cannot find user quota', { status: FORBIDDEN, code: 403 })`. -/
def quotaRecordMissingError : GqlError :=
  { message := "cannot find user quota", code := 403 }

/-- The error rejected/thrown when a size check trips at the pre-check or on a
chunk: `GraphQLError('storage or blob size limit exceeded', PAYLOAD_TOO_LARGE)`. -/
def sizeLimitError : GqlError :=
  { message := "storage or blob size limit exceeded", code := 413 }

/-- The error rejected by the end-of-stream check:
`GraphQLError('storage limit exceeded', PAYLOAD_TOO_LARGE)`. -/
def endLimitError : GqlError :=
  { message := "storage limit exceeded", code := 413 }

/-- Modelled from the spec: the authorization collaborator
(`PermissionService.checkWorkspace`, not under `src/`) fails with `Forbidden`
when the caller lacks the required permission level for the workspace. -/
def forbiddenError : GqlError :=
  { message := "Forbidden", code := 403 }

/-- Permission levels relevant to this resolver: the source passes
`Permission.Write` for `setBlob` and the default (read) level elsewhere. -/
inductive Perm where
  | read
  | write
deriving DecidableEq

/-- Modelled from the spec: the caller holds at most one permission level
(`none` when the caller has no access to the workspace); `write` implies
`read`.  `permGe have need` is true when level `have` satisfies the
requirement `need`, per the spec contract
`checkPermission(tenantId, userId, requiredLevel) -> void | Forbidden`. -/
def permGe : Option Perm → Perm → Bool
  | none, _ => false
  | some _, Perm.read => true
  | some p, Perm.write => p == Perm.write

/-- How the upload stream terminates after the last data chunk:
`ended` fires the `end` event, `errored e` fires the `error` event. -/
inductive StreamEnd where
  | ended
  | errored (e : GqlError)
deriving DecidableEq

/-- The upload byte stream: the data chunks emitted (in order), followed by
its terminal event. -/
structure UploadStream where
  chunks : List (List Nat)
  terminal : StreamEnd
deriving DecidableEq

/-- The recomputed buffer size
`chunks.reduce((acc, cur) => acc + cur.length, 0)` from the data handler. -/
def sumLen (l : List (List Nat)) : Nat :=
  l.foldl (fun a cur => a + cur.length) 0

/-- The body of `checkExceeded` after the missing-quota throw:
`total = size + recvSize`; exceeded when `total > quota && !unlimited`,
else when `recvSize > limit`, else not. -/
def exceedsB (q size limit : Nat) (unlimited : Bool) (recvSize : Nat) : Bool :=
  if size + recvSize > q ∧ unlimited = false then true
  else if recvSize > limit then true
  else false

/-- `checkExceeded(recvSize)` from `setBlob`: throws the FORBIDDEN
`cannot find user quota` error when `!quota` is truthy (the quota value is
`undefined` or `0`), otherwise returns whether a size cap is exceeded. -/
def checkExceeded (quota : Option Nat) (size limit : Nat) (unlimited : Bool)
    (recvSize : Nat) : Except GqlError Bool :=
  match quota with
  | none => Except.error quotaRecordMissingError
  | some q =>
      if q = 0 then Except.error quotaRecordMissingError
      else Except.ok (exceedsB q size limit unlimited recvSize)

/-- The `data` event handler loop of `setBlob`.  Each emitted chunk is pushed
onto the `chunks` array and the buffer size is recomputed by re-summing all
chunk lengths; if the guard trips and the promise is not yet settled, the
promise is rejected with the PAYLOAD_TOO_LARGE error.  The handler stays
attached after a rejection (the source never destroys or pauses the stream),
so every emitted chunk is still received and appended. -/
def dataLoop (quota : Option Nat) (size limit : Nat) (unlimited : Bool)
    (acc : List (List Nat)) (settled : Option GqlError) :
    List (List Nat) → List (List Nat) × Option GqlError
  | [] => (acc, settled)
  | c :: rest =>
      dataLoop quota size limit unlimited (acc ++ [c])
        (match settled with
         | some e => some e
         | none =>
             match checkExceeded quota size limit unlimited (sumLen (acc ++ [c])) with
             | Except.error e => some e
             | Except.ok true => some sizeLimitError
             | Except.ok false => none)
        rest

/-- The buffering promise of `setBlob`: runs the data handler over all chunks,
then the terminal event.  The promise settles with its first settlement: a
mid-stream rejection wins over the terminal events; a stream error rejects;
on `end` the chunks are concatenated and checked once more (rejecting with
`storage limit exceeded`), else the promise resolves with the buffer. -/
def streamBuffer (quota : Option Nat) (size limit : Nat) (unlimited : Bool)
    (stream : UploadStream) : Except GqlError (List Nat) :=
  match (dataLoop quota size limit unlimited [] none stream.chunks).2 with
  | some e => Except.error e
  | none =>
      match stream.terminal with
      | StreamEnd.errored e => Except.error e
      | StreamEnd.ended =>
          match
            checkExceeded quota size limit unlimited
              (dataLoop quota size limit unlimited [] none stream.chunks).1.flatten.length
          with
          | Except.error e => Except.error e
          | Except.ok true => Except.error endLimitError
          | Except.ok false =>
              Except.ok (dataLoop quota size limit unlimited [] none stream.chunks).1.flatten

/-- Modelled from the spec: the durable blob store (`WorkspaceBlobStorage`,
not under `src/`), keyed by `(tenantId, name)`; `put` is last-write-wins. -/
abbrev Store : Type := List (String × String × List Nat)

/-- Modelled from the spec: `put(tenantId, name, bytes)`, overwriting any
existing record under the same key. -/
def storePut (st : Store) (ws name : String) (bytes : List Nat) : Store :=
  (ws, name, bytes) :: st.filter (fun e => !(e.1 == ws && e.2.1 == name))

/-- Modelled from the spec: `delete(tenantId, name)` removes the record under
the key; deleting an absent key is a no-op. -/
def storeDelete (st : Store) (ws name : String) : Store :=
  st.filter (fun e => !(e.1 == ws && e.2.1 == name))

/-- Modelled from the spec: `list(tenantId)` yields the keys of the tenant
blobs (the resolver then maps `item => item.key`). -/
def storeList (st : Store) (ws : String) : List String :=
  (st.filter (fun e => e.1 == ws)).map (fun e => e.2.1)

/-- Modelled from the spec: `totalSize(tenantId)` sums the sizes of the
tenant blobs. -/
def storeTotalSize (st : Store) (ws : String) : Nat :=
  ((st.filter (fun e => e.1 == ws)).map (fun e => e.2.2.length)).sum

/-- The observable outcome of one `setBlob` call: the GraphQL result (the
returned filename or the thrown error), the durable store afterwards, how
many chunks were pulled from the source stream, how many `put` calls were
issued, and whether the `blobs` cache invalidation fired (the
`@PreventCache(['blobs'])` interceptor is modelled from the spec:
invalidation on successful mutation only). -/
structure SetBlobOut where
  result : Except GqlError String
  store : Store
  pulled : Nat
  puts : Nat
  invalidated : Bool

/-- The `setBlob` mutation: checks write permission, reads the quota snapshot
`{quota, size, limit}` and the unlimited-workspace feature flag (all inputs
here), runs `checkExceeded(0)` (whose missing-quota throw propagates, and
whose `true` result throws PAYLOAD_TOO_LARGE) before the stream is created,
then buffers the stream chunk by chunk, and on success puts the buffer and
returns the filename.  Since the data handler stays attached for the life of
the stream, the pulled-chunk count on any path that opens the stream is the
full chunk count. -/
def setBlob (callerPerm : Option Perm) (workspaceId : String)
    (quota : Option Nat) (size limit : Nat) (unlimited : Bool)
    (filename : String) (stream : UploadStream) (store : Store) : SetBlobOut :=
  if permGe callerPerm Perm.write then
    match checkExceeded quota size limit unlimited 0 with
    | Except.error e =>
        { result := Except.error e, store := store,
          pulled := 0, puts := 0, invalidated := false }
    | Except.ok true =>
        { result := Except.error sizeLimitError, store := store,
          pulled := 0, puts := 0, invalidated := false }
    | Except.ok false =>
        match streamBuffer quota size limit unlimited stream with
        | Except.error e =>
            { result := Except.error e, store := store,
              pulled := stream.chunks.length, puts := 0, invalidated := false }
        | Except.ok buffer =>
            { result := Except.ok filename,
              store := storePut store workspaceId filename buffer,
              pulled := stream.chunks.length, puts := 1, invalidated := true }
  else
    { result := Except.error forbiddenError, store := store,
      pulled := 0, puts := 0, invalidated := false }

/-- The `blobs` resolve field: checks workspace permission at the default
(read) level, then lists the blob keys from the store. -/
def blobs (callerPerm : Option Perm) (ws : String) (store : Store) :
    Except GqlError (List String) :=
  if permGe callerPerm Perm.read then Except.ok (storeList store ws)
  else Except.error forbiddenError

/-- The `blobsSize` resolve field: returns `storage.totalSize(workspace.id)`.
The source method takes only the parent workspace and performs no permission
check of its own before touching the store. -/
def blobsSize (ws : String) (store : Store) : Nat :=
  storeTotalSize store ws

/-- The `deleteBlob` mutation: checks workspace permission at the default
(read) level, deletes the blob from the store, and returns `true`. -/
def deleteBlob (callerPerm : Option Perm) (ws name : String) (store : Store) :
    (Except GqlError Bool) × Store :=
  if permGe callerPerm Perm.read then
    (Except.ok true, storeDelete store ws name)
  else (Except.error forbiddenError, store)

/-- Modelled from the spec: the running-counter reimplementation of the data
handler suggested by the design notes ("a single running counter updated
incrementally per chunk rather than re-summing the whole buffer on each
check"), to be compared with `dataLoop`, the re-summing loop from the source. -/
def dataLoopCounter (quota : Option Nat) (size limit : Nat) (unlimited : Bool)
    (acc : List (List Nat)) (running : Nat) (settled : Option GqlError) :
    List (List Nat) → List (List Nat) × Option GqlError
  | [] => (acc, settled)
  | c :: rest =>
      dataLoopCounter quota size limit unlimited (acc ++ [c]) (running + c.length)
        (match settled with
         | some e => some e
         | none =>
             match checkExceeded quota size limit unlimited (running + c.length) with
             | Except.error e => some e
             | Except.ok true => some sizeLimitError
             | Except.ok false => none)
        rest

/-- Modelled from the spec: `streamBuffer` rebuilt on the running-counter
loop (`dataLoopCounter` starting from a zero counter), otherwise identical. -/
def streamBufferCounter (quota : Option Nat) (size limit : Nat) (unlimited : Bool)
    (stream : UploadStream) : Except GqlError (List Nat) :=
  match (dataLoopCounter quota size limit unlimited [] 0 none stream.chunks).2 with
  | some e => Except.error e
  | none =>
      match stream.terminal with
      | StreamEnd.errored e => Except.error e
      | StreamEnd.ended =>
          match
            checkExceeded quota size limit unlimited
              (dataLoopCounter quota size limit unlimited [] 0 none
                stream.chunks).1.flatten.length
          with
          | Except.error e => Except.error e
          | Except.ok true => Except.error endLimitError
          | Except.ok false =>
              Except.ok
                (dataLoopCounter quota size limit unlimited [] 0 none
                  stream.chunks).1.flatten

/-- Modelled from the spec: `setBlob` rebuilt on the running-counter
buffering (`streamBufferCounter`), otherwise identical. -/
def setBlobCounter (callerPerm : Option Perm) (workspaceId : String)
    (quota : Option Nat) (size limit : Nat) (unlimited : Bool)
    (filename : String) (stream : UploadStream) (store : Store) : SetBlobOut :=
  if permGe callerPerm Perm.write then
    match checkExceeded quota size limit unlimited 0 with
    | Except.error e =>
        { result := Except.error e, store := store,
          pulled := 0, puts := 0, invalidated := false }
    | Except.ok true =>
        { result := Except.error sizeLimitError, store := store,
          pulled := 0, puts := 0, invalidated := false }
    | Except.ok false =>
        match streamBufferCounter quota size limit unlimited stream with
        | Except.error e =>
            { result := Except.error e, store := store,
              pulled := stream.chunks.length, puts := 0, invalidated := false }
        | Except.ok buffer =>
            { result := Except.ok filename,
              store := storePut store workspaceId filename buffer,
              pulled := stream.chunks.length, puts := 1, invalidated := true }
  else
    { result := Except.error forbiddenError, store := store,
      pulled := 0, puts := 0, invalidated := false }

/-! Helper lemmas about the chunk loops. -/

theorem foldl_len_shift (l : List (List Nat)) :
    ∀ n : Nat, l.foldl (fun a cur => a + cur.length) n = n + sumLen l := by
  induction l with
  | nil => intro n; simp [sumLen]
  | cons c t ih =>
      intro n
      have h2 : sumLen (c :: t) = c.length + sumLen t := by
        have h3 : sumLen (c :: t) = t.foldl (fun a cur => a + cur.length) (0 + c.length) := rfl
        rw [h3, ih (0 + c.length)]
        omega
      rw [List.foldl_cons, ih (n + c.length), h2]
      omega

theorem sumLen_append_one (acc : List (List Nat)) (c : List Nat) :
    sumLen (acc ++ [c]) = sumLen acc + c.length := by
  simp only [sumLen, List.foldl_append, List.foldl_cons, List.foldl_nil]

theorem sumLen_flatten (l : List (List Nat)) : l.flatten.length = sumLen l := by
  induction l with
  | nil => rfl
  | cons c t ih =>
      have h2 : sumLen (c :: t) = c.length + sumLen t := by
        have h3 : sumLen (c :: t)
            = t.foldl (fun a cur => a + cur.length) (0 + c.length) := rfl
        rw [h3, foldl_len_shift t (0 + c.length)]
        omega
      rw [List.flatten_cons, List.length_append, ih, h2]

theorem dataLoop_settled (quota : Option Nat) (s l : Nat) (u : Bool) (e : GqlError) :
    ∀ (cs acc : List (List Nat)),
      dataLoop quota s l u acc (some e) cs = (acc ++ cs, some e) := by
  intro cs
  induction cs with
  | nil => intro acc; simp [dataLoop]
  | cons c rest ih => intro acc; simp [dataLoop, ih]

theorem dataLoop_fst (quota : Option Nat) (s l : Nat) (u : Bool) :
    ∀ (cs acc : List (List Nat)) (settled : Option GqlError),
      (dataLoop quota s l u acc settled cs).1 = acc ++ cs := by
  intro cs
  induction cs with
  | nil => intro acc settled; simp [dataLoop]
  | cons c rest ih =>
      intro acc settled
      simp only [dataLoop]
      rw [ih]
      simp

theorem dataLoop_snd_cases (q s l : Nat) (u : Bool) (hq : q ≠ 0) :
    ∀ (cs acc : List (List Nat)),
      (dataLoop (some q) s l u acc none cs).2 = none ∨
      (dataLoop (some q) s l u acc none cs).2 = some sizeLimitError := by
  intro cs
  induction cs with
  | nil => intro acc; left; rfl
  | cons c rest ih =>
      intro acc
      rw [dataLoop]
      simp only [checkExceeded, hq, if_false]
      cases hb : exceedsB q s l u (sumLen (acc ++ [c])) with
      | false => exact ih (acc ++ [c])
      | true =>
          right
          exact congrArg Prod.snd
            (dataLoop_settled (some q) s l u sizeLimitError rest (acc ++ [c]))

theorem dataLoop_none_last (q s l : Nat) (u : Bool) (hq : q ≠ 0) :
    ∀ (cs acc : List (List Nat)), cs ≠ [] →
      (dataLoop (some q) s l u acc none cs).2 = none →
      exceedsB q s l u (sumLen (acc ++ cs)) = false := by
  intro cs
  induction cs with
  | nil => intro acc hne; exact absurd rfl hne
  | cons c rest ih =>
      intro acc _hne hnone
      rw [dataLoop] at hnone
      simp only [checkExceeded, hq, if_false] at hnone
      cases hb : exceedsB q s l u (sumLen (acc ++ [c])) with
      | false =>
          rw [hb] at hnone
          cases rest with
          | nil => simpa using hb
          | cons c2 rest2 =>
              have h3 := ih (acc ++ [c]) (by simp) hnone
              simpa using h3
      | true =>
          rw [hb] at hnone
          have h2 : (dataLoop (some q) s l u (acc ++ [c]) (some sizeLimitError) rest).2
              = some sizeLimitError :=
            congrArg Prod.snd
              (dataLoop_settled (some q) s l u sizeLimitError rest (acc ++ [c]))
          exact Option.noConfusion (h2.symm.trans hnone)

theorem exceedsB_true_of_total (q s l r : Nat) (h : s + r > q) :
    exceedsB q s l false r = true := by
  simp [exceedsB, h]

theorem exceedsB_zero_le (q s l : Nat)
    (h : exceedsB q s l false 0 = false) : s ≤ q := by
  by_cases hc : s ≤ q
  · exact hc
  · exfalso
    have h2 : exceedsB q s l false 0 = true := by
      simp [exceedsB]
      omega
    rw [h2] at h
    cases h

theorem streamBuffer_of_settled (quota : Option Nat) (s l : Nat) (u : Bool)
    (stream : UploadStream) (e : GqlError)
    (h : (dataLoop quota s l u [] none stream.chunks).2 = some e) :
    streamBuffer quota s l u stream = Except.error e := by
  unfold streamBuffer
  rw [h]

theorem setBlob_over_quota (p : Option Perm) (ws : String) (q s l : Nat)
    (fn : String) (cs : List (List Nat)) (t : StreamEnd) (st : Store)
    (hp : permGe p Perm.write = true) (hq : q ≠ 0)
    (hover : s + sumLen cs > q) :
    (setBlob p ws (some q) s l false fn
      { chunks := cs, terminal := t } st).result = Except.error sizeLimitError := by
  have hpre : checkExceeded (some q) s l false 0
      = Except.ok (exceedsB q s l false 0) := by
    simp [checkExceeded, hq]
  by_cases h0 : exceedsB q s l false 0 = true
  · simp [setBlob, hp, hpre, h0]
  · have h0f : exceedsB q s l false 0 = false := by
      cases hb : exceedsB q s l false 0
      · rfl
      · exact absurd hb h0
    have hsle : s ≤ q := exceedsB_zero_le q s l h0f
    have hcs : cs ≠ [] := by
      intro hnil
      subst hnil
      simp [sumLen] at hover
      omega
    rcases dataLoop_snd_cases q s l false hq cs [] with hnone | hsome
    · exfalso
      have hlast := dataLoop_none_last q s l false hq cs [] hcs hnone
      rw [List.nil_append] at hlast
      have htrip := exceedsB_true_of_total q s l (sumLen cs) hover
      rw [htrip] at hlast
      cases hlast
    · have hsb := streamBuffer_of_settled (some q) s l false
        { chunks := cs, terminal := t } sizeLimitError hsome
      simp [setBlob, hp, hpre, h0f, hsb]

/-- C1 (amended): for every quota snapshot whose `quotaLimitBytes` is present
and nonzero, with `unlimited = false`, and every payload whose final size
satisfies `usedBytes + finalSize > quotaLimitBytes`, `setBlob` fails with the
PAYLOAD_TOO_LARGE size-limit error, and the outcome is identical for every
way of splitting the same payload into chunks. -/
theorem c1_aggregate_cap_chunking_invariant (p : Option Perm) (ws : String)
    (q s l : Nat) (fn : String) (cs cs2 : List (List Nat)) (st : Store)
    (hp : permGe p Perm.write = true) (hq : q ≠ 0)
    (hover : s + cs.flatten.length > q)
    (hsame : cs2.flatten = cs.flatten) :
    (setBlob p ws (some q) s l false fn
      { chunks := cs, terminal := StreamEnd.ended } st).result
        = Except.error sizeLimitError ∧
    (setBlob p ws (some q) s l false fn
      { chunks := cs2, terminal := StreamEnd.ended } st).result
        = (setBlob p ws (some q) s l false fn
            { chunks := cs, terminal := StreamEnd.ended } st).result := by
  have h1 : s + sumLen cs > q := by
    rw [← sumLen_flatten]
    exact hover
  have h2 : s + sumLen cs2 > q := by
    rw [← sumLen_flatten, hsame]
    exact hover
  have e1 := setBlob_over_quota p ws q s l fn cs StreamEnd.ended st hp hq h1
  have e2 := setBlob_over_quota p ws q s l fn cs2 StreamEnd.ended st hp hq h2
  exact ⟨e1, e2.trans e1.symm⟩

/-- C1 witness: `used=900`, `quota=1000`, a 150-byte payload uploaded as one
chunk or as two 75-byte chunks fails identically with the size-limit error. -/
theorem c1_witness :
    (setBlob (some Perm.write) "w" (some 1000) 900 2000 false "f"
      { chunks := [List.replicate 150 0], terminal := StreamEnd.ended } []).result
        = Except.error sizeLimitError ∧
    (setBlob (some Perm.write) "w" (some 1000) 900 2000 false "f"
      { chunks := [List.replicate 75 0, List.replicate 75 0],
        terminal := StreamEnd.ended } []).result
        = (setBlob (some Perm.write) "w" (some 1000) 900 2000 false "f"
            { chunks := [List.replicate 150 0], terminal := StreamEnd.ended } []).result :=
  c1_aggregate_cap_chunking_invariant (some Perm.write) "w" 1000 900 2000 "f"
    [List.replicate 150 0] [List.replicate 75 0, List.replicate 75 0] []
    (by decide) (by decide) (by decide) (by decide)

/-- C1 counterexample: a snapshot with `unlimited=false`, `usedBytes=0`, a
present `quotaLimitBytes` of `0` and a 1-byte payload has
`usedBytes + finalSize > quotaLimitBytes`, yet `setBlob` fails with the
FORBIDDEN quota-record-missing error, not the QuotaExceeded size error,
because the missing-record test is a falsiness check on the limit value. -/
theorem c1_counterexample :
    (setBlob (some Perm.write) "w" (some 0) 0 100 false "a"
      { chunks := [[7]], terminal := StreamEnd.ended } []).result
        = Except.error quotaRecordMissingError ∧
    (0 : Nat) + 1 > 0 ∧
    quotaRecordMissingError ≠ sizeLimitError := by
  refine ⟨rfl, by decide, by decide⟩

/-- C2 (amended): for every snapshot whose `quotaLimitBytes` is present and
nonzero, the guard returns true iff
`(usedBytes + observedSize > quotaLimitBytes AND NOT unlimited)` or else
`observedSize > perBlobLimitBytes`; in particular with `unlimited=true` and
`observedSize > perBlobLimitBytes` it still returns true. -/
theorem c2_guard_iff_nonzero (q s l r : Nat) (u : Bool) (hq : q ≠ 0) :
    (checkExceeded (some q) s l u r = Except.ok true
      ↔ ((s + r > q ∧ u = false) ∨ r > l)) ∧
    (u = true → r > l → checkExceeded (some q) s l u r = Except.ok true) := by
  have hck : checkExceeded (some q) s l u r
      = Except.ok (exceedsB q s l u r) := by
    simp [checkExceeded, hq]
  constructor
  · rw [hck]
    constructor
    · intro h
      have hb : exceedsB q s l u r = true := by
        cases hbb : exceedsB q s l u r
        · rw [hbb] at h
          simp at h
        · rfl
      simp only [exceedsB] at hb
      by_cases h1 : s + r > q ∧ u = false
      · exact Or.inl h1
      · rw [if_neg h1] at hb
        by_cases h2 : r > l
        · exact Or.inr h2
        · rw [if_neg h2] at hb
          cases hb
    · intro h
      have hb : exceedsB q s l u r = true := by
        simp only [exceedsB]
        rcases h with h1 | h2
        · rw [if_pos h1]
        · by_cases h1 : s + r > q ∧ u = false
          · rw [if_pos h1]
          · rw [if_neg h1, if_pos h2]
      rw [hb]
  · intro _hu hr
    rw [hck]
    have hb : exceedsB q s l u r = true := by
      simp only [exceedsB]
      by_cases h1 : s + r > q ∧ u = false
      · rw [if_pos h1]
      · rw [if_neg h1, if_pos hr]
    rw [hb]

/-- C2 witness: with quota 10 (nonzero), per-blob limit 5, `unlimited=true`
and observed size 6, the guard returns true via the per-blob cap. -/
theorem c2_witness :
    (checkExceeded (some 10) 0 5 true 6 = Except.ok true
      ↔ ((0 + 6 > 10 ∧ true = false) ∨ 6 > 5)) ∧
    (true = true → 6 > 5 → checkExceeded (some 10) 0 5 true 6 = Except.ok true) :=
  c2_guard_iff_nonzero 10 0 5 6 true (by decide)

/-- C2 counterexample: for the snapshot with `quotaLimitBytes` present but
equal to `0`, `unlimited=true` and observed size 11 over the per-blob limit
10, the guard does not return true — it throws the FORBIDDEN
quota-record-missing error, because `!quota` is truthy for `0`. -/
theorem c2_counterexample :
    checkExceeded (some 0) 0 10 true 11 = Except.error quotaRecordMissingError ∧
    checkExceeded (some 0) 0 10 true 11 ≠ Except.ok true ∧
    (11 : Nat) > 10 := by
  refine ⟨rfl, ?_, by decide⟩
  simp [checkExceeded]

/-- C4: when the quota snapshot has no `quotaLimitBytes` value at all,
`setBlob` fails with the quota-record-missing error (an error distinct from
the size-limit error) before the stream is even created: zero chunks are
pulled. -/
theorem c4_missing_quota_fails_fast (p : Option Perm) (ws : String)
    (s l : Nat) (u : Bool) (fn : String) (stream : UploadStream) (st : Store)
    (hp : permGe p Perm.write = true) :
    (setBlob p ws none s l u fn stream st).result
        = Except.error quotaRecordMissingError ∧
    (setBlob p ws none s l u fn stream st).pulled = 0 ∧
    quotaRecordMissingError ≠ sizeLimitError := by
  refine ⟨?_, ?_, by decide⟩ <;> simp [setBlob, hp, checkExceeded]

/-- C4 witness: an absent quota record rejects a one-chunk upload with the
quota-record-missing error and pulls no chunk. -/
theorem c4_witness :
    (setBlob (some Perm.write) "w" none 0 10 false "a"
      { chunks := [[1]], terminal := StreamEnd.ended } []).result
        = Except.error quotaRecordMissingError ∧
    (setBlob (some Perm.write) "w" none 0 10 false "a"
      { chunks := [[1]], terminal := StreamEnd.ended } []).pulled = 0 ∧
    quotaRecordMissingError ≠ sizeLimitError :=
  c4_missing_quota_fails_fast (some Perm.write) "w" 0 10 false "a"
    { chunks := [[1]], terminal := StreamEnd.ended } [] (by decide)

/-- C9: when the quota record exists but the limit value is exactly `0`,
`setBlob` fails with the quota-record-missing error (message
`cannot find user quota`, FORBIDDEN 403) rather than the size-limit error
(PAYLOAD_TOO_LARGE 413), because the missing-record test is a falsiness
check on the limit value. -/
theorem c9_zero_quota_record_missing (p : Option Perm) (ws : String)
    (s l : Nat) (u : Bool) (fn : String) (stream : UploadStream) (st : Store)
    (hp : permGe p Perm.write = true) :
    (setBlob p ws (some 0) s l u fn stream st).result
        = Except.error quotaRecordMissingError ∧
    quotaRecordMissingError.message = "cannot find user quota" ∧
    quotaRecordMissingError.code = 403 ∧
    sizeLimitError.code = 413 ∧
    quotaRecordMissingError ≠ sizeLimitError := by
  refine ⟨?_, rfl, rfl, rfl, by decide⟩
  simp [setBlob, hp, checkExceeded]

/-- C9 witness: a zero quota limit rejects an in-quota-sized upload with the
FORBIDDEN quota-record-missing error. -/
theorem c9_witness :
    (setBlob (some Perm.write) "w" (some 0) 0 10 false "a"
      { chunks := [[1]], terminal := StreamEnd.ended } []).result
        = Except.error quotaRecordMissingError ∧
    quotaRecordMissingError.message = "cannot find user quota" ∧
    quotaRecordMissingError.code = 403 ∧
    sizeLimitError.code = 413 ∧
    quotaRecordMissingError ≠ sizeLimitError :=
  c9_zero_quota_record_missing (some Perm.write) "w" 0 10 false "a"
    { chunks := [[1]], terminal := StreamEnd.ended } [] (by decide)

/-- C3: with `used=900`, `quota=1000`, `perBlobLimit=2000`, `unlimited=false`
and three 60-byte chunks, the guard trips at chunk 2 (it is still below the
limit after chunk 1), yet all 3 chunks are pulled from the source stream and
appended to the buffer: the `data` handler stays attached after the promise
is rejected and the source stream is never destroyed, so reading does not
stop at the tripping chunk. -/
theorem c3_all_chunks_still_pulled :
    (setBlob (some Perm.write) "w" (some 1000) 900 2000 false "f"
      { chunks := [List.replicate 60 0, List.replicate 60 0, List.replicate 60 0],
        terminal := StreamEnd.ended } []).result = Except.error sizeLimitError ∧
    exceedsB 1000 900 2000 false
      (sumLen [List.replicate 60 0, List.replicate 60 0]) = true ∧
    exceedsB 1000 900 2000 false (sumLen [List.replicate 60 0]) = false ∧
    (setBlob (some Perm.write) "w" (some 1000) 900 2000 false "f"
      { chunks := [List.replicate 60 0, List.replicate 60 0, List.replicate 60 0],
        terminal := StreamEnd.ended } []).pulled = 3 ∧
    (dataLoop (some 1000) 900 2000 false [] none
      [List.replicate 60 0, List.replicate 60 0, List.replicate 60 0]).1.length
        = 3 := by
  refine ⟨rfl, by decide, by decide, rfl, rfl⟩

/-- C5: on every failure of `setBlob` (missing quota record, any size-limit
rejection, stream error, or permission denial) no `put` is issued, the store
is unchanged, and the cache invalidation does not fire. -/
theorem c5_failure_no_mutation (p : Option Perm) (ws : String)
    (quota : Option Nat) (s l : Nat) (u : Bool) (fn : String)
    (stream : UploadStream) (st : Store) (e : GqlError)
    (h : (setBlob p ws quota s l u fn stream st).result = Except.error e) :
    (setBlob p ws quota s l u fn stream st).store = st ∧
    (setBlob p ws quota s l u fn stream st).puts = 0 ∧
    (setBlob p ws quota s l u fn stream st).invalidated = false := by
  by_cases hp : permGe p Perm.write = true
  · rcases hc : checkExceeded quota s l u 0 with e1 | b
    · simp [setBlob, hp, hc]
    · cases b
      · rcases hsb : streamBuffer quota s l u stream with e2 | buf
        · simp [setBlob, hp, hc, hsb]
        · exfalso
          simp [setBlob, hp, hc, hsb] at h
      · simp [setBlob, hp, hc]
  · have hp2 : permGe p Perm.write = false := by
      cases hb : permGe p Perm.write
      · rfl
      · exact absurd hb hp
    simp [setBlob, hp2]

/-- C5 witness: a denied caller leaves the store untouched, with no put and
no invalidation. -/
theorem c5_witness :
    (setBlob none "w" (some 10) 0 10 false "a"
      { chunks := [], terminal := StreamEnd.ended } []).store = [] ∧
    (setBlob none "w" (some 10) 0 10 false "a"
      { chunks := [], terminal := StreamEnd.ended } []).puts = 0 ∧
    (setBlob none "w" (some 10) 0 10 false "a"
      { chunks := [], terminal := StreamEnd.ended } []).invalidated = false :=
  c5_failure_no_mutation none "w" (some 10) 0 10 false "a"
    { chunks := [], terminal := StreamEnd.ended } [] forbiddenError rfl

/-- C6 (amended): on full success `setBlob` returns the committed blob's
filename to the caller, not its size in bytes. -/
theorem c6_success_returns_filename (p : Option Perm) (ws : String)
    (quota : Option Nat) (s l : Nat) (u : Bool) (fn : String)
    (stream : UploadStream) (st : Store) (v : String)
    (h : (setBlob p ws quota s l u fn stream st).result = Except.ok v) :
    v = fn := by
  by_cases hp : permGe p Perm.write = true
  · rcases hc : checkExceeded quota s l u 0 with e1 | b
    · simp [setBlob, hp, hc] at h
    · cases b
      · rcases hsb : streamBuffer quota s l u stream with e2 | buf
        · simp [setBlob, hp, hc, hsb] at h
        · simp [setBlob, hp, hc, hsb] at h
          exact h.symm
      · simp [setBlob, hp, hc] at h
  · have hp2 : permGe p Perm.write = false := by
      cases hb : permGe p Perm.write
      · rfl
      · exact absurd hb hp
    simp [setBlob, hp2] at h

/-- C6 witness: the successful upload of a 3-byte blob named `a` returns
the string `a`. -/
theorem c6_witness : "a" = "a" :=
  c6_success_returns_filename (some Perm.write) "w" (some 1000) 0 100 false "a"
    { chunks := [[1, 2, 3]], terminal := StreamEnd.ended } [] "a" rfl

/-- C6 counterexample: a fully successful 3-byte upload named `a` returns the
filename `a`, not the committed size 3 bytes, refuting that `setBlob` returns
`sizeBytes` on success. -/
theorem c6_counterexample :
    (setBlob (some Perm.write) "w" (some 1000) 0 100 false "a"
      { chunks := [[1, 2, 3]], terminal := StreamEnd.ended } []).result
        = Except.ok "a" ∧
    (setBlob (some Perm.write) "w" (some 1000) 0 100 false "a"
      { chunks := [[1, 2, 3]], terminal := StreamEnd.ended } []).store
        = [("w", "a", [1, 2, 3])] ∧
    ("a" : String) ≠ "3" := by
  refine ⟨rfl, rfl, by decide⟩

/-- C7 (amended): the list and delete operations resolve the caller's
permission first and fail with Forbidden before touching the store when the
caller lacks it; the size operation performs no permission check of its own
and always reaches the store. -/
theorem c7_guard_asymmetry (p : Option Perm) (ws name : String) (st : Store)
    (hp : permGe p Perm.read = false) :
    blobs p ws st = Except.error forbiddenError ∧
    deleteBlob p ws name st = (Except.error forbiddenError, st) ∧
    blobsSize ws st = storeTotalSize st ws := by
  refine ⟨?_, ?_, rfl⟩ <;> simp [blobs, deleteBlob, hp]

/-- C7 witness: a caller with no permission at all is denied by list and
delete, while the size field still reports the store total. -/
theorem c7_witness :
    blobs none "w" [("w", "a", [0, 0, 0, 0, 0])] = Except.error forbiddenError ∧
    deleteBlob none "w" "a" [("w", "a", [0, 0, 0, 0, 0])]
        = (Except.error forbiddenError, [("w", "a", [0, 0, 0, 0, 0])]) ∧
    blobsSize "w" [("w", "a", [0, 0, 0, 0, 0])]
        = storeTotalSize [("w", "a", [0, 0, 0, 0, 0])] "w" :=
  c7_guard_asymmetry none "w" "a" [("w", "a", [0, 0, 0, 0, 0])] rfl

/-- C7 counterexample: the size operation returns the workspace total (5)
for a caller holding no permission, while list and delete reject that same
caller: the size resolver takes no caller and resolves no permission before
touching the store. -/
theorem c7_counterexample :
    blobsSize "w" [("w", "a", [0, 0, 0, 0, 0])] = 5 ∧
    blobs none "w" [("w", "a", [0, 0, 0, 0, 0])] = Except.error forbiddenError ∧
    (deleteBlob none "w" "a" [("w", "a", [0, 0, 0, 0, 0])]).1
        = Except.error forbiddenError := by
  refine ⟨rfl, rfl, rfl⟩

theorem dataLoopCounter_eq (quota : Option Nat) (s l : Nat) (u : Bool) :
    ∀ (cs acc : List (List Nat)) (settled : Option GqlError) (running : Nat),
      running = sumLen acc →
      dataLoopCounter quota s l u acc running settled cs
        = dataLoop quota s l u acc settled cs := by
  intro cs
  induction cs with
  | nil => intro acc settled running _hr; rfl
  | cons c rest ih =>
      intro acc settled running hr
      simp only [dataLoopCounter, dataLoop]
      have h2 : running + c.length = sumLen (acc ++ [c]) := by
        rw [hr, sumLen_append_one]
      rw [h2]
      exact ih (acc ++ [c]) _ (sumLen (acc ++ [c])) rfl

theorem streamBufferCounter_eq (quota : Option Nat) (s l : Nat) (u : Bool)
    (stream : UploadStream) :
    streamBufferCounter quota s l u stream = streamBuffer quota s l u stream := by
  unfold streamBufferCounter streamBuffer
  rw [dataLoopCounter_eq quota s l u stream.chunks [] none 0 rfl]

/-- C8: re-summing the buffered chunk lengths after each append (as the
source does) is observably equivalent to maintaining a single incrementally
updated running counter: `setBlob` built on either loop produces the same
outcome, store, pull count, put count and invalidation on every input. -/
theorem c8_resum_equals_running_counter (p : Option Perm) (ws : String)
    (quota : Option Nat) (s l : Nat) (u : Bool) (fn : String)
    (stream : UploadStream) (st : Store) :
    setBlobCounter p ws quota s l u fn stream st
      = setBlob p ws quota s l u fn stream st := by
  unfold setBlobCounter setBlob
  rw [streamBufferCounter_eq]

/-- C10: a caller holding exactly the default read-level permission succeeds
with `deleteBlob` (which removes the blob from the store), while `setBlob`
rejects that same caller with Forbidden because it additionally requires the
Write permission. -/
theorem c10_delete_needs_only_read (p : Option Perm) (ws name : String)
    (st : Store) (quota : Option Nat) (s l : Nat) (u : Bool) (fn : String)
    (stream : UploadStream)
    (hp : permGe p Perm.read = true) :
    deleteBlob p ws name st = (Except.ok true, storeDelete st ws name) ∧
    (name ∈ storeList (storeDelete st ws name) ws → False) ∧
    (setBlob (some Perm.read) ws quota s l u fn stream st).result
        = Except.error forbiddenError := by
  refine ⟨by simp [deleteBlob, hp], ?_, rfl⟩
  intro hmem
  simp [storeList, storeDelete] at hmem

/-- C10 witness: a read-level caller deletes blob `a` (gone from the list
afterwards) but cannot upload. -/
theorem c10_witness :
    deleteBlob (some Perm.read) "w" "a" [("w", "a", [1])]
        = (Except.ok true, storeDelete [("w", "a", [1])] "w" "a") ∧
    ("a" ∈ storeList (storeDelete [("w", "a", [1])] "w" "a") "w" → False) ∧
    (setBlob (some Perm.read) "w" (some 5) 0 5 false "f"
      { chunks := [], terminal := StreamEnd.ended } [("w", "a", [1])]).result
        = Except.error forbiddenError :=
  c10_delete_needs_only_read (some Perm.read) "w" "a" [("w", "a", [1])]
    (some 5) 0 5 false "f" { chunks := [], terminal := StreamEnd.ended }
    (by decide)
